import Mathlib

/-!
Verification development for the wa_llm message ingestion, deduplication,
policy-dispatch and summarization-fanout pipeline.

The Python sources are shallowly embedded as pure Lean functions:
external collaborators (the WhatsApp gateway, the text-completion agent,
the database query results) appear as explicit environment parameters,
exceptions are `Except`, and timestamps are natural numbers (seconds).
-/

namespace WaLlm

/-! ## Data model (models/: Group, Message, webhook payload) -/

/-- A stored group row.  Field names follow the SQLModel `Group` model used by
`init_groups.py`, `router.py` and `summarize_and_send_to_groups/__init__.py`. -/
structure Group where
  group_jid : String
  group_name : Option String
  group_topic : Option String
  owner_jid : Option String
  managed : Bool
  community_keys : Option (List String)
  forward_url : Option String
  send_summary_to_self : Bool
  notify_on_spam : Bool
  last_summary_sync : Nat
  last_ingest : Nat
deriving Repr, DecidableEq

/-- A stored message row.  The scheduler query filters on `group_jid`,
the router query on `chat_jid`. -/
structure Message where
  message_id : String
  chat_jid : String
  group_jid : String
  sender_jid : String
  timestamp : Nat
  text : Option String
deriving Repr, DecidableEq

/-- The inbound webhook payload (models/webhook.py): sender id `from_`,
and an optional message object carrying id and text. -/
structure WebhookPayload where
  from_ : Option String
  message_id : Option String
  text : Option String
deriving Repr, DecidableEq

/-- Python truthiness of an optional string: `None` and `""` are falsy. -/
def strTruthy : Option String → Bool
  | none => false
  | some s => !(s == "")

/-! ## Webhook endpoint (src/api/webhook.py, lines 13-37)

The endpoint body is
`if payload.from_: await handler(payload)` followed by `return "ok"`.
There is no exception handler around the `await`, so an exception raised by
per-message handling propagates out of the endpoint instead of reaching the
`return "ok"` line.  The handler call is abstracted by its outcome
(`Except Unit Unit`); the result records whether the handler was invoked and
the endpoint's outcome (a returned string or a propagated exception). -/
def webhook (payload : WebhookPayload) (handler : Except Unit Unit) :
    Bool × Except Unit String :=
  if strTruthy payload.from_ then
    match handler with
    | .ok _ => (true, .ok "ok")
    | .error e => (true, .error e)
  else
    (false, .ok "ok")

/-! ## DedupeGuard (src/handler/__init__.py, lines 19-21 and 72-79)

`_processing_cache = TTLCache(maxsize=1000, ttl=4 * 60)` together with the
check-and-insert performed under `_processing_lock`:
`if message.message_id in _processing_cache: return` else
`_processing_cache[message.message_id] = True`.
The cache is modelled as a list of (key, expiry) entries in insertion order;
an entry inserted at time `t` expires at `t + ttl` and is treated as absent
once the clock passes its expiry.  When the cache is full the oldest entry is
evicted.  The asyncio lock is modelled by `checkAndInsert` being a single atomic state
transition. -/

def cacheTtl : Nat := 4 * 60

def cacheMaxsize : Nat := 1000

structure CacheEntry where
  key : String
  expires : Nat
deriving Repr, DecidableEq

/-- Entries still alive at time `now`. -/
def liveEntries (now : Nat) (es : List CacheEntry) : List CacheEntry :=
  es.filter (fun e => decide (now < e.expires))

/-- The atomic check-and-insert of handler/__init__.py lines 72-79:
returns `false` (reject) when the id is present and unexpired, otherwise
inserts the id with a fresh expiry and returns `true` (checkAndInsert). -/
def checkAndInsert (now : Nat) (id : String) (st : List CacheEntry) :
    Bool × List CacheEntry :=
  let es := liveEntries now st
  if es.any (fun e => e.key == id) then
    (false, es)
  else
    let es' := if cacheMaxsize ≤ es.length then es.drop 1 else es
    (true, es' ++ [⟨id, now + cacheTtl⟩])

/-! ## SummarizationScheduler unit
(src/summarize_and_send_to_groups/__init__.py, `summarize_and_send_to_group`)

The per-group unit is embedded as a pure function of an environment holding
the outcomes of the external calls it makes:
* `my_jid` — outcome of `whatsapp.get_my_jid()` (exception, falsy value, or
  the normalized jid string);
* `db_messages` — the message table; the unit's SELECT filter is applied
  inside the embedding;
* `summarize_result` — outcome of the (retry-wrapped) `summarize` agent call;
* `send_result` — per-recipient outcome of `whatsapp.send_message`;
* `community_groups` — result of `group.get_related_community_groups`;
* `now` — the value `datetime.now()` takes in the `finally` block. -/

structure SchedEnv where
  my_jid : Except Unit (Option String)
  db_messages : List Message
  summarize_result : Except Unit String
  send_result : String → Except Unit Unit
  community_groups : List Group
  now : Nat

/-- Observable outcome of one scheduler unit: whether the summarize agent was
called, which recipients were successfully sent to, which sends were
attempted, and the group's `last_summary_sync` after the unit finishes. -/
structure SchedResult where
  summarize_called : Bool
  sends_ok : List String
  sends_attempted : List String
  final_sync : Nat
deriving Repr, DecidableEq

/-- The unit's message query (lines 58-65): messages of this group with
`timestamp >= group.last_summary_sync` and `sender_jid != my_jid_str`. -/
def qualifying (db : List Message) (group : Group) (myJid : String) :
    List Message :=
  db.filter (fun m =>
    m.group_jid == group.group_jid &&
    decide (group.last_summary_sync ≤ m.timestamp) &&
    !(m.sender_jid == myJid))

/-- The recipients the send phase (lines 78-99) iterates over, in order:
the origin group when its `send_summary_to_self` is true, then every
community group whose `send_summary_to_self` is true. -/
def sendPlan (group : Group) (communityGroups : List Group) : List String :=
  (if group.send_summary_to_self then [group.group_jid] else []) ++
    (communityGroups.filter (·.send_summary_to_self)).map (·.group_jid)

/-- Sequential sends inside one `try` block: the first failing send raises,
is caught by the `except` at line 101, and aborts the remaining sends.
Returns (recipients successfully sent to, recipients attempted). -/
def runSends (send : String → Except Unit Unit) : List String →
    List String × List String
  | [] => ([], [])
  | r :: rs =>
    match send r with
    | .ok _ =>
      let p := runSends send rs
      (r :: p.1, r :: p.2)
    | .error _ => ([], [r])

/-- Embedding of `summarize_and_send_to_group` (lines 47-108).  Control flow of the source:
jid failure or falsy jid → early return; fewer than 5 qualifying messages →
early return; summarization failure → early return at line 76 (this `return`
is NOT covered by the later `try/except/finally`); otherwise the sends run
inside a `try` whose `finally` sets `group.last_summary_sync = datetime.now()`
and commits. -/
def summarize_and_send_to_group (env : SchedEnv) (group : Group) :
    SchedResult :=
  match env.my_jid with
  | .error _ => ⟨false, [], [], group.last_summary_sync⟩
  | .ok none => ⟨false, [], [], group.last_summary_sync⟩
  | .ok (some jid) =>
    let messages := qualifying env.db_messages group jid
    if messages.length < 5 then
      ⟨false, [], [], group.last_summary_sync⟩
    else
      match env.summarize_result with
      | .error _ => ⟨true, [], [], group.last_summary_sync⟩
      | .ok _ =>
        let p := runSends env.send_result (sendPlan group env.community_groups)
        ⟨true, p.1, p.2, env.now⟩

/-! ## Startup bootstrap retry
(src/app/main.py `gather_groups_with_retry`, lines 56-80, composed with
src/whatsapp/init_groups.py `gather_groups`, lines 18-24)

`gather_groups` is modelled by its exception surface: the outcome of the
roster fetch `client.get_user_groups()` and the outcome of the subsequent
database section.  A 401 `HTTPStatusError` from the fetch is caught inside
`gather_groups`, which logs a warning and returns normally; any other
`HTTPStatusError` is re-raised; any other exception propagates. -/

inductive FetchOutcome
  | ok
  | httpErr (code : Nat)
  | otherErr
deriving Repr, DecidableEq

/-- How a call of `gather_groups` terminates, as seen by its caller. -/
inductive SyncOutcome
  | success
  | raiseHttp (code : Nat)
  | raiseOther
deriving Repr, DecidableEq

/-- Exception surface of `gather_groups` (init_groups.py lines 18-24 plus the
re-raising `except` of the session block): a 401 from the roster fetch is
swallowed (warning + normal return); a non-401 HTTP error is re-raised; other
fetch errors propagate; with a successful fetch the call terminates however
the database section terminates. -/
def gather_groups (fetch : FetchOutcome) (db : SyncOutcome) : SyncOutcome :=
  match fetch with
  | .ok => db
  | .httpErr c => if c == 401 then .success else .raiseHttp c
  | .otherErr => .raiseOther

def max_retries : Nat := 3

def retry_delay : Nat := 10

/-- Observable trace of the bootstrap wrapper: how many times `gather_groups`
was called, the sleeps performed between attempts, a re-raised HTTP status
code if any, and whether the final give-up warning was logged. -/
structure RetryTrace where
  calls : Nat
  sleeps : List Nat
  raised : Option Nat
  gaveUpLog : Bool
deriving Repr, DecidableEq

/-- The `for attempt in range(max_retries)` loop of main.py lines 63-78:
success or a generic exception breaks out; a non-401 `HTTPStatusError` is
re-raised; a 401 sleeps `retry_delay` and retries unless this was the last
attempt, in which case the give-up warning is logged. `runs i` is the outcome
of the i-th `gather_groups` call; `remaining` counts the loop iterations
still available. -/
def retryLoop (runs : Nat → SyncOutcome) (attempt : Nat) : Nat → RetryTrace
  | 0 => ⟨0, [], none, false⟩
  | remaining + 1 =>
    match runs attempt with
    | .success => ⟨1, [], none, false⟩
    | .raiseHttp c =>
      if c == 401 then
        if remaining == 0 then ⟨1, [], none, true⟩
        else
          let t := retryLoop runs (attempt + 1) remaining
          ⟨t.calls + 1, retry_delay :: t.sleeps, t.raised, t.gaveUpLog⟩
      else ⟨1, [], some c, false⟩
    | .raiseOther => ⟨1, [], none, false⟩

/-- Embedding of `gather_groups_with_retry` over an abstract per-attempt outcome of
`gather_groups`. -/
def gather_groups_with_retry (runs : Nat → SyncOutcome) : RetryTrace :=
  retryLoop runs 0 max_retries

/-- The composed startup bootstrap: the wrapper calling the real
`gather_groups`, whose i-th call sees fetch outcome `fetches i` and database
outcome `dbs i`. -/
def bootstrapRetry (fetches : Nat → FetchOutcome) (dbs : Nat → SyncOutcome) :
    RetryTrace :=
  gather_groups_with_retry (fun i => gather_groups (fetches i) (dbs i))

/-! ## Count extraction (src/handler/router.py, `extract_message_count`,
lines 40-91)

The digit branch is `re.search(r'(?<!@)\b(\d{1,2})\b(?!\d)', text)`.
Word characters for `\b` are modelled for the alphabets the program deals
with: ASCII letters, digits, underscore, and the Hebrew letter block. -/

def isWordChar (c : Char) : Bool :=
  c.isAlphanum || c == '_' || (0x5d0 ≤ c.toNat && c.toNat ≤ 0x5ea)

def digitVal (c : Char) : Nat := c.toNat - 48

/-- The zero-width conditions at a candidate match position: the previous
character (if any) is not a word character (`\b` before a digit) and is not
`@` (the `(?<!@)` lookbehind), and the current character is a digit. -/
def startOk (prev : Option Char) (c : Char) : Bool :=
  c.isDigit &&
    (match prev with
     | none => true
     | some p => !(p == '@') && !isWordChar p)

/-- One attempt of the pattern `(?<!@)\b(\d{1,2})\b(?!\d)` at a fixed
position, with the regex engine's greedy backtracking: two digits are tried
first; the one-digit alternative can only succeed when the following
character fails to be a word character (which also discharges `(?!\d)`). -/
def reMatchAt (prev : Option Char) : List Char → Option Nat
  | [] => none
  | c :: rest =>
    if startOk prev c then
      match rest with
      | [] => some (digitVal c)
      | d :: rest2 =>
        if d.isDigit then
          match rest2 with
          | [] => some (10 * digitVal c + digitVal d)
          | e :: _ =>
            if isWordChar e then none
            else some (10 * digitVal c + digitVal d)
        else
          if isWordChar d then none else some (digitVal c)
    else none

/-- Simulation of `re.search`: try the pattern at each position from left to right. -/
def reSearch (prev : Option Char) : List Char → Option Nat
  | [] => none
  | c :: rest =>
    match reMatchAt prev (c :: rest) with
    | some n => some n
    | none => reSearch (some c) rest

/-- Python `word in text` substring containment. -/
def containsSub (needle : List Char) : List Char → Bool
  | [] => needle.isEmpty
  | c :: rest => needle.isPrefixOf (c :: rest) || containsSub needle rest

/-- The `hebrew_numbers` dict of router.py in insertion order (the duplicated
literal key for 8 collapses to a single entry, as in a Python dict). -/
def hebrewNumbers : List (String × Nat) :=
  [("אחת", 1), ("אחד", 1),
   ("שתיים", 2), ("שניים", 2), ("שנים", 2),
   ("שלוש", 3), ("שלושה", 3),
   ("ארבע", 4), ("ארבעה", 4),
   ("חמש", 5), ("חמישה", 5),
   ("שש", 6), ("שישה", 6),
   ("שבע", 7), ("שבעה", 7),
   ("שמונה", 8),
   ("תשע", 9), ("תשעה", 9),
   ("עשר", 10), ("עשרה", 10)]

/-- The `english_numbers` dict of router.py in insertion order. -/
def englishNumbers : List (String × Nat) :=
  [("one", 1), ("two", 2), ("three", 3), ("four", 4), ("five", 5),
   ("six", 6), ("seven", 7), ("eight", 8), ("nine", 9), ("ten", 10)]

/-- First vocabulary entry (in dict order) occurring in the text. -/
def firstWordMatch (text : List Char) : List (String × Nat) → Option Nat
  | [] => none
  | (w, n) :: rest =>
    if containsSub w.toList text then some n else firstWordMatch text rest

/-- Model of `text.lower()`: ASCII case folding (Hebrew is unaffected). -/
def lowerList (cs : List Char) : List Char := cs.map Char.toLower

/-- The word-vocabulary fallback of router.py lines 81-91: Hebrew words are
looked up in the original text, English words in the lowercased text. -/
def wordFallback (cs : List Char) : Option Nat :=
  match firstWordMatch cs hebrewNumbers with
  | some n => some n
  | none => firstWordMatch (lowerList cs) englishNumbers

/-- Embedding of `extract_message_count` (router.py lines 40-91): the digit match wins
when its value lies in [1,100]; otherwise Hebrew then English number words;
otherwise `None`. -/
def extract_message_count (text : String) : Option Nat :=
  let cs := text.toList
  match reSearch none cs with
  | some n => if 1 ≤ n && n ≤ 100 then some n else wordFallback cs
  | none => wordFallback cs

/-! Specification-side formulation of the digit scan, following the claim's
words: the first *standalone* 1-2 digit number — a maximal digit run of
length at most two, delimited by non-word characters (and not preceded by
`@`), so in particular not adjacent to other digits. -/

/-- Claim-side scan: at each position, look at the whole maximal digit run
starting there and accept it when it is standalone and short. -/
def specScan (prev : Option Char) : List Char → Option Nat
  | [] => none
  | c :: rest =>
    if startOk prev c then
      if (c :: rest.takeWhile Char.isDigit).length ≤ 2 &&
          (match rest.dropWhile Char.isDigit with
           | [] => true
           | e :: _ => !isWordChar e) then
        some ((c :: rest.takeWhile Char.isDigit).foldl
          (fun a x => 10 * a + digitVal x) 0)
      else specScan (some c) rest
    else specScan (some c) rest

/-- Claim-side count extraction: first standalone 1-2 digit number with
value in [1,100]; otherwise the word fallback in the same fixed order. -/
def extractCountSpec (text : String) : Option Nat :=
  let cs := text.toList
  match specScan none cs with
  | some n => if 1 ≤ n && n ≤ 100 then some n else wordFallback cs
  | none => wordFallback cs

/-! ## GroupSync per-record merge (src/whatsapp/init_groups.py, lines 40-83) -/

/-- A remote roster record as returned by `client.get_user_groups()`. -/
structure RemoteGroup where
  JID : String
  Name : Option String
  Topic : Option String
  OwnerPN : Option String
  OwnerJID : Option String
deriving Repr, DecidableEq

/-- The Python `or` chain `g.OwnerPN or g.OwnerJID or None`. -/
def firstTruthy (a b : Option String) : Option String :=
  if strTruthy a then a else if strTruthy b then b else none

/-- The skip condition `not g.JID or not g.JID.strip()`: a missing/empty or
whitespace-only id. -/
def blankJid (s : String) : Bool :=
  s == "" || s.toList.all Char.isWhitespace

/-- The Group row built at init_groups.py lines 66-82: descriptive fields
from the remote record, policy fields and timestamps from the existing row
`og` when present, else the defaults. -/
def mergeGroup (now : Nat) (g : RemoteGroup) (og : Option Group) : Group where
  group_jid := g.JID
  group_name := g.Name
  group_topic := g.Topic
  owner_jid := firstTruthy g.OwnerPN g.OwnerJID
  managed := match og with | some o => o.managed | none => false
  community_keys := match og with | some o => o.community_keys | none => none
  forward_url := match og with | some o => o.forward_url | none => none
  send_summary_to_self :=
    match og with | some o => o.send_summary_to_self | none => false
  notify_on_spam := match og with | some o => o.notify_on_spam | none => false
  last_summary_sync := match og with | some o => o.last_summary_sync | none => now
  last_ingest := match og with | some o => o.last_ingest | none => now

/-- One iteration of the roster loop for record `g`: a blank id is skipped
(`none`), otherwise the merged group is upserted. `existing` is the
`session.get(Group, g.JID)` lookup. -/
def processRecord (now : Nat) (existing : String → Option Group)
    (g : RemoteGroup) : Option Group :=
  if blankJid g.JID then none
  else some (mergeGroup now g (existing g.JID))

/-! ## Manual summarize action (src/handler/router.py, `Router.summarize`,
lines 128-267)

External calls are abstracted in a `RouterEnv`:
* `fetch jid` — the rows of the per-group SELECT (messages of that chat from
  the last 24 hours, descending, `limit 30`), before the `requested_count`
  cap that the code applies afterwards;
* `agent jid` — the outcome of the summarization agent run for that group's
  messages. -/

structure RouterEnv where
  fetch : String → List Message
  agent : String → Except Unit String
  community_groups : List Group

/-- Python truthiness of `requested_count` (`if requested_count:`). -/
def truthyCount : Option Nat → Bool
  | none => false
  | some n => !(n == 0)

/-- Python truthiness of `message.group.community_keys` (a list column):
non-`None` and non-empty. -/
def keysTruthy : Option (List String) → Bool
  | none => false
  | some ks => !ks.isEmpty

/-- Python `str(...)` rendering of an optional string inside an f-string. -/
def pyStr : Option String → String
  | none => "None"
  | some s => s

/-- An outbound `send_message` call: target chat, text, quoted message id. -/
structure Send where
  phone : String
  message : String
  in_reply_to : Option String
deriving Repr, DecidableEq

/-- The fixed reply sent when no summary block was produced
(router.py line 210). -/
def nothingToSummarizeReply : String :=
  "No recent messages to summarize in the linked groups."

/-- Per-sibling work in the community branch (router.py lines 142-197):
skipped entirely when the group is the requesting chat and its
`send_summary_to_self` is false; otherwise fetch (capped by
`requested_count` when truthy), skip when no message remains, and produce a
labelled block unless the agent run raises (caught per sibling). -/
def blockFor (env : RouterEnv) (rc : Option Nat) (gr : Group) :
    Option String :=
  let ms := env.fetch gr.group_jid
  let ms := if truthyCount rc then ms.take (rc.getD 0) else ms
  if ms.length < 1 then none
  else
    match env.agent gr.group_jid with
    | .ok out => some ("📱 *" ++ pyStr gr.group_name ++ "*:\n" ++ out)
    | .error _ => none

/-- The groups actually iterated in the community branch:
`all_groups = [message.group] + community_groups`, with the skip at
router.py lines 145-146 (`group.group_jid == message.chat_jid and not
group.send_summary_to_self`). -/
def procGroups (msg : Message) (g : Group) (community : List Group) :
    List Group :=
  (g :: community).filter
    (fun gr => !(gr.group_jid == msg.chat_jid && !gr.send_summary_to_self))

/-- The `summaries` list accumulated by the community branch. -/
def summaryBlocks (env : RouterEnv) (rc : Option Nat) (msg : Message)
    (g : Group) : List String :=
  (procGroups msg g env.community_groups).filterMap (blockFor env rc)

/-- Embedding of `Router.summarize`.  The router only dispatches messages that have text,
so `msg.text.getD ""` is the `message.text` string.  In the community branch
all agent errors are caught per sibling and exactly one message is sent to
the triggering chat; in the single-group branch an agent error propagates. -/
def router_summarize (env : RouterEnv) (msg : Message)
    (group : Option Group) : Except Unit (List Send) :=
  let rc := extract_message_count (msg.text.getD "")
  match group with
  | some g =>
    if keysTruthy g.community_keys then
      let blocks := summaryBlocks env rc msg g
      if !blocks.isEmpty then
        .ok [⟨msg.chat_jid, String.intercalate "\n\n" blocks,
              some msg.message_id⟩]
      else
        .ok [⟨msg.chat_jid, nothingToSummarizeReply, some msg.message_id⟩]
    else
      match env.agent msg.chat_jid with
      | .ok out => .ok [⟨msg.chat_jid, out, some msg.message_id⟩]
      | .error e => .error e
  | none =>
    match env.agent msg.chat_jid with
    | .ok out => .ok [⟨msg.chat_jid, out, some msg.message_id⟩]
    | .error e => .error e

/-! ## Concrete sample data used by witnesses and counterexamples -/

def grpA : Group :=
  ⟨"a@g.us", some "Group A", none, none, true, some ["k1"], none, true,
   false, 50, 50⟩

def grpB : Group :=
  ⟨"b@g.us", some "Group B", none, none, true, some ["k1"], none, false,
   false, 50, 50⟩

def grpC : Group :=
  ⟨"c@g.us", some "Group C", none, none, true, some ["k1"], none, true,
   false, 50, 50⟩

def fiveMessages : List Message :=
  [⟨"m1", "a@g.us", "a@g.us", "u@s.whatsapp.net", 60, some "hello"⟩,
   ⟨"m2", "a@g.us", "a@g.us", "u@s.whatsapp.net", 61, some "hello"⟩,
   ⟨"m3", "a@g.us", "a@g.us", "u@s.whatsapp.net", 62, some "hello"⟩,
   ⟨"m4", "a@g.us", "a@g.us", "u@s.whatsapp.net", 63, some "hello"⟩,
   ⟨"m5", "a@g.us", "a@g.us", "u@s.whatsapp.net", 64, some "hello"⟩]

/-! ## Claim theorems -/

/-- C10: a webhook payload whose sender field `from_` is empty or missing is
acknowledged with "ok" and the message handler is never invoked, so no
storage, dedupe or outbound work happens for that delivery. -/
theorem webhook_skips_senderless (payload : WebhookPayload)
    (handler : Except Unit Unit)
    (h : payload.from_ = none ∨ payload.from_ = some "") :
    webhook payload handler = (false, .ok "ok") := by
  rcases h with h | h <;> simp [webhook, strTruthy, h]

theorem webhook_skips_senderless_witness :
    webhook ⟨none, some "m1", some "hi"⟩ (.error ()) = (false, .ok "ok") :=
  webhook_skips_senderless ⟨none, some "m1", some "hi"⟩ (.error ())
    (Or.inl rfl)

/-- C4 counterexample: when the sender is present and per-message handling
raises, the endpoint's outcome is the propagated exception, not the fixed
"ok" acknowledgement. -/
theorem webhook_error_propagates :
    (webhook ⟨some "123@s.whatsapp.net", some "m1", some "hi"⟩
        (.error ())).2 ≠ Except.ok "ok" := by
  simp [webhook, strTruthy]

/-- C4 (amended): the endpoint returns the fixed "ok" acknowledgement
whenever per-message handling completes without raising, and also when the
payload is skipped for lack of a sender; an exception raised by the handler
propagates out of the endpoint instead. -/
theorem webhook_ok_unless_handler_raises (payload : WebhookPayload)
    (handler : Except Unit Unit)
    (h : handler = .ok () ∨ strTruthy payload.from_ = false) :
    (webhook payload handler).2 = .ok "ok" := by
  unfold webhook
  rcases h with rfl | h
  · split <;> rfl
  · simp [h]

theorem webhook_ok_unless_handler_raises_witness :
    (webhook ⟨some "123@s.whatsapp.net", some "m1", some "hi"⟩
        (.ok ())).2 = .ok "ok" :=
  webhook_ok_unless_handler_raises ⟨some "123@s.whatsapp.net", some "m1",
    some "hi"⟩ (.ok ()) (Or.inl rfl)

/-- C3: when the roster fetch reports the authentication-not-ready condition
(HTTP 401) on startup, the composed bootstrap makes exactly one
`gather_groups` call, performs no retry sleep, and never reaches the
give-up log — because `gather_groups` itself swallows the 401 and returns
normally, so the wrapper's 401-retry branch never fires for the roster
fetch.  The wrapper in isolation would retry a *raised* 401 three times
with the fixed 10-second delay, as its log messages promise. -/
theorem bootstrap_auth_failure_single_attempt :
    bootstrapRetry (fun _ => FetchOutcome.httpErr 401) (fun _ => .success) =
        ⟨1, [], none, false⟩ ∧
      gather_groups_with_retry (fun _ => SyncOutcome.raiseHttp 401) =
        ⟨3, [retry_delay, retry_delay], none, true⟩ := by
  constructor <;> rfl

def envSummarizeFails : SchedEnv :=
  ⟨.ok (some "bot@s.whatsapp.net"), fiveMessages, .error (),
   fun _ => .ok (), [grpC], 1000⟩

def envSendsFail : SchedEnv :=
  ⟨.ok (some "bot@s.whatsapp.net"), fiveMessages, .ok "summary",
   fun _ => .error (), [grpB, grpC], 1000⟩

def envOriginSendFails : SchedEnv :=
  ⟨.ok (some "bot@s.whatsapp.net"), fiveMessages, .ok "summary",
   fun r => if r == "a@g.us" then .error () else .ok (), [grpC], 1000⟩

/-- C1 counterexample: a unit that finds five qualifying messages but whose
summarization call fails returns with `last_summary_sync` unchanged, so the
watermark is not advanced to the current time. -/
theorem watermark_not_advanced_on_summarize_failure :
    5 ≤ (qualifying envSummarizeFails.db_messages grpA
          "bot@s.whatsapp.net").length ∧
    (summarize_and_send_to_group envSummarizeFails grpA).final_sync =
      grpA.last_summary_sync ∧
    grpA.last_summary_sync ≠ envSummarizeFails.now := by
  refine ⟨by decide, rfl, by decide⟩

/-- C1 (amended): in a unit with at least 5 qualifying messages the
watermark is advanced to "now" regardless of the outcome of the sends —but
only when the summarization call succeeded; when the summarization call
fails the unit returns with `last_summary_sync` unchanged. -/
theorem watermark_advance_depends_on_summary (env : SchedEnv) (group : Group)
    (jid : String) (hj : env.my_jid = .ok (some jid))
    (hq : 5 ≤ (qualifying env.db_messages group jid).length) :
    (∀ s, env.summarize_result = .ok s →
      (summarize_and_send_to_group env group).final_sync = env.now) ∧
    (∀ e, env.summarize_result = .error e →
      (summarize_and_send_to_group env group).final_sync =
        group.last_summary_sync) := by
  obtain ⟨mj, db, sr, send, cg, now⟩ := env
  simp only at hj hq ⊢
  subst hj
  constructor
  · intro s hs
    subst hs
    unfold summarize_and_send_to_group
    simp only
    rw [if_neg (by omega)]
  · intro e he
    subst he
    unfold summarize_and_send_to_group
    simp only
    rw [if_neg (by omega)]

theorem watermark_advance_depends_on_summary_witness :
    (summarize_and_send_to_group envSendsFail grpA).final_sync =
        envSendsFail.now ∧
      (summarize_and_send_to_group envSummarizeFails grpA).final_sync =
        grpA.last_summary_sync :=
  ⟨(watermark_advance_depends_on_summary envSendsFail grpA
      "bot@s.whatsapp.net" rfl (by decide)).1 "summary" rfl,
   (watermark_advance_depends_on_summary envSummarizeFails grpA
      "bot@s.whatsapp.net" rfl (by decide)).2 () rfl⟩

/-- C6: a unit that finds fewer than 5 qualifying messages (timestamp at or
after the watermark, sender different from the bot identity) performs no
summarization and no sends and leaves `last_summary_sync` unchanged. -/
theorem scheduler_skips_below_threshold (env : SchedEnv) (group : Group)
    (jid : String) (hj : env.my_jid = .ok (some jid))
    (hq : (qualifying env.db_messages group jid).length < 5) :
    summarize_and_send_to_group env group =
      ⟨false, [], [], group.last_summary_sync⟩ := by
  obtain ⟨mj, db, sr, send, cg, now⟩ := env
  simp only at hj hq ⊢
  subst hj
  unfold summarize_and_send_to_group
  simp only
  rw [if_pos hq]

def envFewMessages : SchedEnv :=
  ⟨.ok (some "bot@s.whatsapp.net"), fiveMessages.take 4, .ok "summary",
   fun _ => .ok (), [grpB], 1000⟩

theorem scheduler_skips_below_threshold_witness :
    summarize_and_send_to_group envFewMessages grpA =
      ⟨false, [], [], grpA.last_summary_sync⟩ :=
  scheduler_skips_below_threshold envFewMessages grpA "bot@s.whatsapp.net"
    rfl (by decide)

/-- Sequential sends inside one `try` block stop at the first failure. -/
theorem runSends_append_fail (send : String → Except Unit Unit)
    (p₁ p₂ : List String) (r : String)
    (hok : ∀ x ∈ p₁, send x = .ok ())
    (hr : send r = .error ()) :
    runSends send (p₁ ++ r :: p₂) = (p₁, p₁ ++ [r]) := by
  induction p₁ with
  | nil => simp [runSends, hr]
  | cons a t ih =>
    have ha : send a = .ok () := hok a (by simp)
    have ht := ih (fun x hx => hok x (by simp [hx]))
    simp [runSends, ha, ht]

/-- C2 counterexample: the origin group's own send fails, and the eligible
community sibling grpC (whose `send_summary_to_self` is true) is never even
attempted: one recipient's failure aborts the remaining sends. -/
theorem send_failure_blocks_remaining_recipients :
    grpC.send_summary_to_self = true ∧
    grpC.group_jid ∈ sendPlan grpA envOriginSendFails.community_groups ∧
    (summarize_and_send_to_group envOriginSendFails grpA).sends_attempted =
      ["a@g.us"] ∧
    grpC.group_jid ∉
      (summarize_and_send_to_group envOriginSendFails grpA).sends_attempted := by
  refine ⟨rfl, by decide, by decide, by decide⟩

/-- C2 (amended): sends run in plan order inside a single `try`; recipients
before the first failing send are delivered, the failure is caught and
logged once, and no later recipient in the plan — eligible or not — is
attempted. -/
theorem sends_stop_at_first_failure (env : SchedEnv) (group : Group)
    (jid s : String) (hj : env.my_jid = .ok (some jid))
    (hq : 5 ≤ (qualifying env.db_messages group jid).length)
    (hs : env.summarize_result = .ok s)
    (p₁ p₂ : List String) (r : String)
    (hplan : sendPlan group env.community_groups = p₁ ++ r :: p₂)
    (hok : ∀ x ∈ p₁, env.send_result x = .ok ())
    (hr : env.send_result r = .error ()) :
    (summarize_and_send_to_group env group).sends_ok = p₁ ∧
    (summarize_and_send_to_group env group).sends_attempted = p₁ ++ [r] := by
  obtain ⟨mj, db, sr, send, cg, now⟩ := env
  simp only at hj hq hs hplan hok hr ⊢
  subst hj
  subst hs
  unfold summarize_and_send_to_group
  simp only
  rw [if_neg (by omega), hplan, runSends_append_fail send p₁ p₂ r hok hr]
  exact ⟨rfl, rfl⟩

theorem sends_stop_at_first_failure_witness :
    (summarize_and_send_to_group envOriginSendFails grpA).sends_ok = [] ∧
    (summarize_and_send_to_group envOriginSendFails grpA).sends_attempted =
      [] ++ ["a@g.us"] :=
  sends_stop_at_first_failure envOriginSendFails grpA "bot@s.whatsapp.net"
    "summary" rfl (by decide) rfl [] ["c@g.us"] "a@g.us" (by decide)
    (fun x hx => absurd hx (List.not_mem_nil x)) rfl

/-- C5: for a message id with no live cache entry, the first check within
the 4-minute window admits it (and inserts it into the bounded cache), a
second check on the same id within the window is rejected, and a check
after the window has elapsed admits the id again.  The check-and-insert is
the single atomic transition `checkAndInsert` (the model of the check performed
under the process-wide `_processing_lock`). -/
theorem cache_ttl_roundtrip (id : String) (st : List CacheEntry)
    (t1 t2 t3 : Nat) (b1 b2 b3 : Bool) (s1 s2 s3 : List CacheEntry)
    (h0 : ∀ e ∈ st, e.key = id → e.expires ≤ t1)
    (h2 : t2 < t1 + cacheTtl) (h3 : t1 + cacheTtl < t3)
    (ha1 : checkAndInsert t1 id st = (b1, s1))
    (ha2 : checkAndInsert t2 id s1 = (b2, s2))
    (ha3 : checkAndInsert t3 id s2 = (b3, s3)) :
    b1 = true ∧ b2 = false ∧ b3 = true := by
  have hmem1 : (liveEntries t1 st).any (fun e => e.key == id) = false := by
    rw [List.any_eq_false]
    intro e he
    rw [liveEntries, List.mem_filter] at he
    obtain ⟨hst, hlive⟩ := he
    simp only [decide_eq_true_eq] at hlive
    simp only [beq_iff_eq]
    intro hk
    exact absurd (h0 e hst hk) (by omega)
  have h1 : checkAndInsert t1 id st =
      (true,
        (if cacheMaxsize ≤ (liveEntries t1 st).length then
            (liveEntries t1 st).drop 1
          else liveEntries t1 st) ++ [⟨id, t1 + cacheTtl⟩]) := by
    simp [checkAndInsert, hmem1]
  rw [h1] at ha1
  injection ha1 with hb1 hs1
  -- every id-keyed entry of the state after the first checkAndInsert is the fresh one
  have hkey : ∀ e ∈ s1, e.key = id → e = ⟨id, t1 + cacheTtl⟩ := by
    rw [← hs1]
    intro e he hk
    rcases List.mem_append.1 he with he | he
    · exfalso
      have he' : e ∈ liveEntries t1 st := by
        split at he
        · exact List.drop_subset 1 _ he
        · exact he
      rw [liveEntries, List.mem_filter] at he'
      obtain ⟨hst, hlive⟩ := he'
      simp only [decide_eq_true_eq] at hlive
      exact absurd (h0 e hst hk) (by omega)
    · simpa using he
  have hfresh : (⟨id, t1 + cacheTtl⟩ : CacheEntry) ∈ s1 := by
    rw [← hs1]
    exact List.mem_append.2 (Or.inr (by simp))
  have hmem2 : (liveEntries t2 s1).any (fun e => e.key == id) = true := by
    rw [List.any_eq_true]
    refine ⟨⟨id, t1 + cacheTtl⟩, ?_, by simp⟩
    rw [liveEntries, List.mem_filter]
    exact ⟨hfresh, by simpa using h2⟩
  have h2' : checkAndInsert t2 id s1 = (false, liveEntries t2 s1) := by
    simp [checkAndInsert, hmem2]
  rw [h2'] at ha2
  injection ha2 with hb2 hs2
  have hmem3 : (liveEntries t3 (liveEntries t2 s1)).any
      (fun e => e.key == id) = false := by
    rw [List.any_eq_false]
    intro e he
    simp only [beq_iff_eq]
    intro hk
    rw [liveEntries, List.mem_filter] at he
    obtain ⟨he, hlive3⟩ := he
    rw [liveEntries, List.mem_filter] at he
    obtain ⟨he, _⟩ := he
    have := hkey e he hk
    subst this
    simp only [decide_eq_true_eq] at hlive3
    omega
  have h3' : checkAndInsert t3 id (liveEntries t2 s1) =
      (true,
        (if cacheMaxsize ≤ (liveEntries t3 (liveEntries t2 s1)).length then
            (liveEntries t3 (liveEntries t2 s1)).drop 1
          else liveEntries t3 (liveEntries t2 s1)) ++
          [⟨id, t3 + cacheTtl⟩]) := by
    simp [checkAndInsert, hmem3]
  rw [← hs2, h3'] at ha3
  injection ha3 with hb3 hs3x
  exact ⟨hb1.symm, hb2.symm, hb3.symm⟩

theorem cache_ttl_roundtrip_witness :
    (checkAndInsert 0 "m1" []).1 = true ∧
    (checkAndInsert 100 "m1" (checkAndInsert 0 "m1" []).2).1 = false ∧
    (checkAndInsert 241 "m1" (checkAndInsert 100 "m1" (checkAndInsert 0 "m1" []).2).2).1 = true :=
  cache_ttl_roundtrip "m1" [] 0 100 241
    (checkAndInsert 0 "m1" []).1 (checkAndInsert 100 "m1" (checkAndInsert 0 "m1" []).2).1
    (checkAndInsert 241 "m1" (checkAndInsert 100 "m1" (checkAndInsert 0 "m1" []).2).2).1
    (checkAndInsert 0 "m1" []).2 (checkAndInsert 100 "m1" (checkAndInsert 0 "m1" []).2).2
    (checkAndInsert 241 "m1" (checkAndInsert 100 "m1" (checkAndInsert 0 "m1" []).2).2).2
    (fun e he => absurd he (List.not_mem_nil e)) (by decide) (by decide)
    rfl rfl rfl

/-- C8: for a remote roster record with a non-blank id, the stored group
takes its descriptive fields (name, topic, owner) from the remote record;
for an already-known group the policy fields and timestamps are taken
unchanged from the existing local row, and a newly-discovered group gets
the documented defaults with both timestamps set to now. -/
theorem roster_merge_preserves_policy (now : Nat)
    (existing : String → Option Group) (g : RemoteGroup) (stored : Group)
    (hblank : blankJid g.JID = false)
    (hstored : processRecord now existing g = some stored) :
    stored.group_jid = g.JID ∧
    stored.group_name = g.Name ∧
    stored.group_topic = g.Topic ∧
    stored.owner_jid = firstTruthy g.OwnerPN g.OwnerJID ∧
    (∀ og, existing g.JID = some og →
      stored.managed = og.managed ∧
      stored.community_keys = og.community_keys ∧
      stored.forward_url = og.forward_url ∧
      stored.send_summary_to_self = og.send_summary_to_self ∧
      stored.notify_on_spam = og.notify_on_spam ∧
      stored.last_summary_sync = og.last_summary_sync ∧
      stored.last_ingest = og.last_ingest) ∧
    (existing g.JID = none →
      stored.managed = false ∧
      stored.community_keys = none ∧
      stored.forward_url = none ∧
      stored.send_summary_to_self = false ∧
      stored.notify_on_spam = false ∧
      stored.last_summary_sync = now ∧
      stored.last_ingest = now) := by
  rw [processRecord, hblank] at hstored
  simp only [Bool.false_eq_true, if_false, Option.some.injEq] at hstored
  subst hstored
  refine ⟨rfl, rfl, rfl, rfl, ?_, ?_⟩
  · intro og hog
    simp [mergeGroup, hog]
  · intro hnone
    simp [mergeGroup, hnone]

def remoteA : RemoteGroup :=
  ⟨"a@g.us", some "New Name", some "topic", some "owner@s.whatsapp.net",
   none⟩

def existingA : String → Option Group :=
  fun j => if j == "a@g.us" then some grpA else none

theorem roster_merge_preserves_policy_witness :
    (mergeGroup 777 remoteA (existingA "a@g.us")).group_name =
        some "New Name" ∧
      (mergeGroup 777 remoteA (existingA "a@g.us")).managed = true := by
  have h := roster_merge_preserves_policy 777 existingA remoteA
    (mergeGroup 777 remoteA (existingA "a@g.us")) (by decide) rfl
  refine ⟨h.2.1, ?_⟩
  rw [(h.2.2.2.2.1 grpA rfl).1]
  rfl

/-- C9: in a manual summarize triggered in a group with community keys,
every sibling whose jid differs from the triggering chat is iterated
regardless of its own `send_summary_to_self`; the triggering group itself
is iterated exactly when its own `send_summary_to_self` is true; and the
action sends exactly one message to the triggering chat — the blocks
joined by a blank line, or the fixed "nothing to summarize" reply when no
block was produced. -/
theorem community_fanout_scope (env : RouterEnv) (msg : Message) (g : Group)
    (hk : keysTruthy g.community_keys = true) :
    (∀ sib ∈ env.community_groups, sib.group_jid ≠ msg.chat_jid →
      sib ∈ procGroups msg g env.community_groups) ∧
    (g.group_jid = msg.chat_jid →
      (g ∈ procGroups msg g env.community_groups ↔
        g.send_summary_to_self = true)) ∧
    (router_summarize env msg (some g) =
      .ok [⟨msg.chat_jid,
            if (summaryBlocks env
                  (extract_message_count (msg.text.getD "")) msg g).isEmpty
            then nothingToSummarizeReply
            else String.intercalate "\n\n"
              (summaryBlocks env
                (extract_message_count (msg.text.getD "")) msg g),
            some msg.message_id⟩]) := by
  refine ⟨?_, ?_, ?_⟩
  · intro sib hsib hne
    rw [procGroups, List.mem_filter]
    refine ⟨List.mem_cons_of_mem g hsib, ?_⟩
    simp [hne]
  · intro heq
    constructor
    · intro hmem
      rw [procGroups, List.mem_filter] at hmem
      obtain ⟨hmem1, hcond⟩ := hmem
      by_contra hflag
      simp only [Bool.not_eq_true] at hflag
      simp [heq, hflag] at hcond
    · intro hflag
      rw [procGroups, List.mem_filter]
      exact ⟨List.mem_cons_self g env.community_groups, by simp [hflag]⟩
  · rw [router_summarize]
    simp only [hk, if_true]
    rcases hb : (summaryBlocks env
        (extract_message_count (msg.text.getD "")) msg g).isEmpty with _ | _
    · simp [hb]
    · simp [hb]

def msgTrigger : Message :=
  ⟨"mt1", "a@g.us", "a@g.us", "u@s.whatsapp.net", 90,
   some "please summarize the chat"⟩

def envRouter : RouterEnv :=
  ⟨fun j => [⟨"mr1", j, j, "u@s.whatsapp.net", 95, some "hi"⟩],
   fun j => .ok ("summary of " ++ j), [grpB]⟩

theorem community_fanout_scope_witness :
    grpB ∈ procGroups msgTrigger grpA envRouter.community_groups ∧
    router_summarize envRouter msgTrigger (some grpA) =
      .ok [⟨msgTrigger.chat_jid,
            if (summaryBlocks envRouter
                  (extract_message_count (msgTrigger.text.getD ""))
                  msgTrigger grpA).isEmpty
            then nothingToSummarizeReply
            else String.intercalate "\n\n"
              (summaryBlocks envRouter
                (extract_message_count (msgTrigger.text.getD ""))
                msgTrigger grpA),
            some msgTrigger.message_id⟩] := by
  have h := community_fanout_scope envRouter msgTrigger grpA (by decide)
  exact ⟨h.1 grpB (by simp [envRouter]) (by decide), h.2.2⟩

theorem isWordChar_of_isDigit {c : Char} (h : c.isDigit = true) :
    isWordChar c = true := by
  simp [isWordChar, Char.isAlphanum, h]

/-- One-step unfolding of the positional scan. -/
theorem reSearch_cons (prev : Option Char) (c : Char) (rest : List Char) :
    reSearch prev (c :: rest) =
      match reMatchAt prev (c :: rest) with
      | some n => some n
      | none => reSearch (some c) rest := rfl

/-- One-step unfolding of the claim-side scan. -/
theorem specScan_cons (prev : Option Char) (c : Char) (rest : List Char) :
    specScan prev (c :: rest) =
      if startOk prev c then
        if (c :: rest.takeWhile Char.isDigit).length ≤ 2 &&
            (match rest.dropWhile Char.isDigit with
             | [] => true
             | e :: _ => !isWordChar e) then
          some ((c :: rest.takeWhile Char.isDigit).foldl
            (fun a x => 10 * a + digitVal x) 0)
        else specScan (some c) rest
      else specScan (some c) rest := rfl

/-- The regex engine's positional scan with greedy backtracking agrees with
the claim's formulation via maximal digit runs. -/
theorem reSearch_eq_specScan : ∀ (cs : List Char) (prev : Option Char),
    reSearch prev cs = specScan prev cs := by
  intro cs
  induction cs with
  | nil => intro prev; rfl
  | cons c rest ih =>
    intro prev
    cases hs : startOk prev c with
    | false =>
      have hm : reMatchAt prev (c :: rest) = none := by
        simp [reMatchAt, hs]
      rw [reSearch_cons, hm, specScan_cons, if_neg (by simp [hs])]
      exact ih (some c)
    | true =>
      cases rest with
      | nil =>
        have hm : reMatchAt prev [c] = some (digitVal c) := by
          simp [reMatchAt, hs]
        rw [reSearch_cons, hm, specScan_cons, if_pos hs,
          if_pos (by simp)]
        simp
      | cons d rest2 =>
        cases hd : d.isDigit with
        | false =>
          have htw : (d :: rest2).takeWhile Char.isDigit = [] := by
            simp [List.takeWhile_cons, hd]
          have hdw : (d :: rest2).dropWhile Char.isDigit = d :: rest2 := by
            simp [List.dropWhile_cons, hd]
          cases hw : isWordChar d with
          | true =>
            have hm : reMatchAt prev (c :: d :: rest2) = none := by
              simp [reMatchAt, hs, hd, hw]
            rw [reSearch_cons, hm, specScan_cons, if_pos hs,
              if_neg (by simp [htw, hdw, hw])]
            exact ih (some c)
          | false =>
            have hm : reMatchAt prev (c :: d :: rest2) =
                some (digitVal c) := by
              simp [reMatchAt, hs, hd, hw]
            rw [reSearch_cons, hm, specScan_cons, if_pos hs,
              if_pos (by simp [htw, hdw, hw])]
            simp [htw]
        | true =>
          cases rest2 with
          | nil =>
            have hm : reMatchAt prev [c, d] =
                some (10 * digitVal c + digitVal d) := by
              simp [reMatchAt, hs, hd]
            rw [reSearch_cons, hm, specScan_cons, if_pos hs,
              if_pos (by simp [List.takeWhile_cons, hd])]
            simp [List.takeWhile_cons, hd]
          | cons e rest3 =>
            cases he : e.isDigit with
            | true =>
              have hwe := isWordChar_of_isDigit he
              have hm : reMatchAt prev (c :: d :: e :: rest3) = none := by
                simp [reMatchAt, hs, hd, hwe]
              have htw : (d :: e :: rest3).takeWhile Char.isDigit =
                  d :: e :: rest3.takeWhile Char.isDigit := by
                simp [List.takeWhile_cons, hd, he]
              rw [reSearch_cons, hm, specScan_cons, if_pos hs,
                if_neg (by
                  simp only [htw, Bool.and_eq_true, decide_eq_true_eq,
                    List.length_cons]
                  rintro ⟨h1, _⟩
                  omega)]
              exact ih (some c)
            | false =>
              have htw : (d :: e :: rest3).takeWhile Char.isDigit = [d] := by
                simp [List.takeWhile_cons, hd, he]
              have hdw : (d :: e :: rest3).dropWhile Char.isDigit =
                  e :: rest3 := by
                simp [List.dropWhile_cons, hd, he]
              cases hw : isWordChar e with
              | true =>
                have hm : reMatchAt prev (c :: d :: e :: rest3) = none := by
                  simp [reMatchAt, hs, hd, hw]
                rw [reSearch_cons, hm, specScan_cons, if_pos hs,
                  if_neg (by simp [htw, hdw, hw])]
                exact ih (some c)
              | false =>
                have hm : reMatchAt prev (c :: d :: e :: rest3) =
                    some (10 * digitVal c + digitVal d) := by
                  simp [reMatchAt, hs, hd, hw]
                rw [reSearch_cons, hm, specScan_cons, if_pos hs,
                  if_pos (by simp [htw, hdw, hw])]
                simp [htw]

/-- C7: `extract_message_count` follows the claimed layering — the first
standalone 1-2 digit number (a maximal digit run not adjacent to other
digits, not preceded by `@`) is returned when its value lies in [1,100];
otherwise the first matching Hebrew number word, then the first matching
English number word, then `None`.  In particular "summarize last 5
messages" yields 5, a 10-digit token alone yields `None`, and text with no
number yields `None`. -/
theorem extract_message_count_correct :
    (∀ s : String, extract_message_count s = extractCountSpec s) ∧
    extract_message_count "summarize last 5 messages" = some 5 ∧
    extract_message_count "0501234567" = none ∧
    extract_message_count "please summarize the chat" = none := by
  refine ⟨?_, by decide, by decide, by decide⟩
  intro s
  rw [extract_message_count, extractCountSpec, reSearch_eq_specScan]

end WaLlm
